import Mathlib

/-!
Shallow embedding of the evercore workflow/task orchestrator core
(task runtime policy helpers, ticket state policy, worker service
finalization paths, wait-for-event executor, scheduler batch firing),
with theorems checking the natural-language specification against it.

Timestamps are modelled as integers (seconds); `datetime + timedelta`
becomes integer addition.  Python `None` becomes `Option.none`; Python
`x or d` on integers (where `0` is falsy) and on optional integers is
made explicit by the helpers below.
-/

namespace Evercore

/-- Python `x or d` for plain integers: `0` is falsy. -/
def orInt (x d : Int) : Int :=
  if x = 0 then d else x

/-- Python `x or d` where `x` is an optional integer: `None` and `0` are falsy. -/
def orOptInt (x : Option Int) (d : Int) : Int :=
  match x with
  | none => d
  | some v => orInt v d

/-- Python `s or d` where `s` is an optional string: `None` and `""` are falsy. -/
def orOptStr (x : Option String) (d : String) : String :=
  match x with
  | none => d
  | some s => if s = "" then d else s

/-- Python `str.strip()`: drop leading and trailing whitespace. -/
def pyStrip (s : String) : String :=
  String.mk (((s.data.dropWhile Char.isWhitespace).reverse.dropWhile Char.isWhitespace).reverse)

/-! Embedding of `evercore/task_runtime.py` (pure policy helpers). -/

/-- Embeds `task_runtime.normalize_max_attempts`: the default is clamped via
`max(int(default_max_attempts or 1), 1)`; a present value is clamped via
`max(int(value), 1)` and the default is used only when the value is `None`. -/
def normalize_max_attempts (value : Option Int) (default_max_attempts : Int) : Int :=
  let default := max (orInt default_max_attempts 1) 1
  match value with
  | none => default
  | some v => max v 1

/-- Embeds `task_runtime.lease_expires_at`: `now + max(int(lease_seconds or 1), 1)` seconds. -/
def leaseExpiresAt (now : Int) (lease_seconds : Int) : Int :=
  now + max (orInt lease_seconds 1) 1

/-- Embeds `task_runtime.compute_retry_delay_seconds`:
`base = max(retry_base_seconds or 1, 1)`, `maximum = max(retry_max_seconds or base, base)`,
result `min(maximum, base * 2 ** max(0, attempt_count - 1))`. -/
def compute_retry_delay_seconds (attempt_count retry_base_seconds retry_max_seconds : Int) : Int :=
  let base := max (orInt retry_base_seconds 1) 1
  let maximum := max (orOptInt (some retry_max_seconds) base) base
  min maximum (base * 2 ^ (max 0 (attempt_count - 1)).toNat)

/-- Embeds `task_runtime.compute_next_retry_at`: `now + delay` seconds. -/
def compute_next_retry_at (now attempt_count retry_base_seconds retry_max_seconds : Int) : Int :=
  now + compute_retry_delay_seconds attempt_count retry_base_seconds retry_max_seconds

/-- Embeds `task_runtime.should_dead_letter`: `attempt_count >= max(max_attempts, 1)`. -/
def should_dead_letter (attempt_count max_attempts : Int) : Bool :=
  max max_attempts 1 ≤ attempt_count

/-! Embedding of the entity rows from `evercore/models.py` that the claims
touch, restricted to the fields the embedded operations read or write.
The `payload` bag of a task is restricted to the keys the built-in
`wait_for_event` executor reads. -/

/-- Payload keys read by `WaitForEventExecutor.execute`. -/
structure EventWaitPayload where
  event_type : Option String
  timeout_seconds : Option Int
  consume : Option Bool
  poll_interval_seconds : Option Int
  deriving DecidableEq

/-- Task row (`models.Task`), with the fields used by the worker service,
ticket service and executors. -/
structure Task where
  id : Nat
  ticket_id : String
  task_key : String
  state : String
  payload : EventWaitPayload
  error_message : Option String
  cancel_requested : Bool
  cancel_requested_at : Option Int
  attempt_count : Int
  max_attempts : Option Int
  retry_base_seconds : Option Int
  retry_max_seconds : Option Int
  timeout_seconds : Option Int
  next_run_at : Option Int
  claimed_by : Option String
  claimed_at : Option Int
  lease_expires_at : Option Int
  created_at : Int
  started_at : Option Int
  completed_at : Option Int
  updated_at : Int
  deriving DecidableEq

/-- Ticket row (`models.Ticket`), with the fields used by the embedded services. -/
structure Ticket where
  ticket_id : String
  stage : String
  status : String
  paused : Bool
  resumed_at : Option Int
  approval_required : Bool
  approval_status : String
  completed_at : Option Int
  updated_at : Int
  deriving DecidableEq

/-- Dependency edge row (`models.TaskDependency`). -/
structure TaskDependency where
  task_id : Nat
  depends_on_task_id : Nat
  deriving DecidableEq

/-- Event inbox row (`models.TicketEvent`). -/
structure TicketEvent where
  id : Nat
  ticket_id : String
  event_type : String
  consumed_at : Option Int
  consumed_by_task_id : Option Nat
  created_at : Int
  deriving DecidableEq

/-- Schedule row (`models.TicketSchedule`), with the fields used by
`SchedulerService.process_due_schedules` and `_run_schedule`. -/
structure TicketSchedule where
  id : Nat
  schedule_key : String
  active : Bool
  next_run_at : Option Int
  interval_seconds : Option Int
  task_key : Option String
  last_run_at : Option Int
  updated_at : Int
  deriving DecidableEq

/-- Configuration options (`settings.Settings`) read by the embedded code. -/
structure Settings where
  default_max_attempts : Int
  retry_base_seconds : Int
  retry_max_seconds : Int
  task_lease_seconds : Int
  stale_task_timeout_seconds : Int
  event_wait_poll_interval_seconds : Int
  deriving DecidableEq

/-! Embedding of `evercore/services/state_policy.py`. -/

/-- Resolved ticket lifecycle state (`state_policy.TicketStateUpdate`). -/
structure TicketStateUpdate where
  stage : String
  status : String
  completed_at : Option Int
  deriving DecidableEq

/-- Embeds `DefaultTicketStatePolicy.resolve`.  The call `now_utc()` made when
all tasks are completed is passed in as the `now` argument. -/
def resolveTicketState (now : Int) (ticket : Ticket) (tasks : List Task) : TicketStateUpdate :=
  if ticket.paused then
    ⟨ticket.stage, "paused", ticket.completed_at⟩
  else if ticket.approval_required && (ticket.approval_status == "pending") then
    ⟨"pending_approval", "waiting_approval", none⟩
  else if ticket.approval_required && (ticket.approval_status == "rejected") then
    ⟨"review", "attention", none⟩
  else if tasks.isEmpty then
    ⟨"queued", "active", none⟩
  else
    let any_failed := tasks.any fun t => t.state == "failed" || t.state == "dead_letter"
    let any_running := tasks.any fun t => t.state == "running"
    let any_queued := tasks.any fun t => t.state == "queued" || t.state == "retrying"
    let all_completed := tasks.all fun t => t.state == "completed"
    if any_failed then ⟨"review", "attention", none⟩
    else if all_completed then ⟨"finished", "completed", some now⟩
    else if any_running || any_queued then ⟨"running", "active", none⟩
    else ⟨"running", "active", none⟩

/-- Spec-side resolver written from claim C2's priority list: paused, then
pending approval, then rejected approval, then empty task list, then any
failed or dead-lettered task, then all completed, then the running default. -/
def resolveTicketStateSpec (now : Int) (ticket : Ticket) (tasks : List Task) : TicketStateUpdate :=
  if ticket.paused then
    ⟨ticket.stage, "paused", ticket.completed_at⟩
  else if ticket.approval_required && (ticket.approval_status == "pending") then
    ⟨"pending_approval", "waiting_approval", none⟩
  else if ticket.approval_required && (ticket.approval_status == "rejected") then
    ⟨"review", "attention", none⟩
  else if tasks.isEmpty then
    ⟨"queued", "active", none⟩
  else if tasks.any fun t => t.state == "failed" || t.state == "dead_letter" then
    ⟨"review", "attention", none⟩
  else if tasks.all fun t => t.state == "completed" then
    ⟨"finished", "completed", some now⟩
  else
    ⟨"running", "active", none⟩

/-! Embedding of the per-task mutations performed by
`evercore/services/worker_service.py`.  Each helper of the Python class
becomes a pure function from the old task row (plus the clock and the
values the method reads from settings) to the new task row. -/

/-- Embeds `WorkerService._retry_policy`: per-task overrides fall back to the
settings, the base is clamped to at least 1 and the maximum to at least the
base. -/
def retryPolicy (cfg : Settings) (t : Task) : Int × Int :=
  let retry_base_seconds := max (orOptInt t.retry_base_seconds cfg.retry_base_seconds) 1
  let retry_max_seconds := max (orOptInt t.retry_max_seconds cfg.retry_max_seconds) retry_base_seconds
  (retry_base_seconds, retry_max_seconds)

/-- Embeds `WorkerService._mark_task_terminal_failure`. -/
def markTaskTerminalFailure (now : Int) (message : String) (t : Task) : Task :=
  { t with
    state := "failed"
    error_message := some message
    completed_at := some now
    updated_at := now
    claimed_by := none
    claimed_at := none
    lease_expires_at := none
    next_run_at := none }

/-- Embeds `WorkerService._mark_task_cancelled`. -/
def markTaskCancelled (now : Int) (t : Task) : Task :=
  { t with
    state := "cancelled"
    error_message := some "cancel requested"
    completed_at := some now
    updated_at := now
    claimed_by := none
    claimed_at := none
    lease_expires_at := none
    next_run_at := none }

/-- Embeds `WorkerService._finalize_retry_or_dead_letter` (the task mutation;
log writing and the returned response message are not modelled). -/
def finalizeRetryOrDeadLetter (cfg : Settings) (now : Int) (message : String) (t : Task) : Task :=
  let attempt_count := orInt t.attempt_count 0
  let max_attempts := normalize_max_attempts t.max_attempts cfg.default_max_attempts
  let t1 : Task := { t with max_attempts := some max_attempts }
  let rp := retryPolicy cfg t1
  if should_dead_letter attempt_count max_attempts then
    { t1 with
      state := "dead_letter"
      error_message := some message
      completed_at := some now
      updated_at := now
      claimed_by := none
      claimed_at := none
      lease_expires_at := none
      next_run_at := none }
  else
    { t1 with
      state := "retrying"
      error_message := some message
      completed_at := none
      updated_at := now
      claimed_by := none
      claimed_at := none
      lease_expires_at := none
      next_run_at := some (compute_next_retry_at now attempt_count rp.1 rp.2) }

/-- Embeds `WorkerService._finalize_deferred_task`. -/
def finalizeDeferredTask (cfg : Settings) (now : Int) (message : String)
    (defer_seconds : Option Int) (t : Task) : Task :=
  let retry_delay := max (orOptInt defer_seconds cfg.event_wait_poll_interval_seconds) 1
  { t with
    state := "retrying"
    error_message := some message
    completed_at := none
    updated_at := now
    attempt_count := max (orInt t.attempt_count 1 - 1) 0
    claimed_by := none
    claimed_at := none
    lease_expires_at := none
    next_run_at := some (compute_next_retry_at now 1 retry_delay retry_delay) }

/-- Embeds the claim mutation inside `WorkerService._claim_next_task`
(normalize `max_attempts`, move to `running`, bump the attempt counter,
stamp claim and lease fields). -/
def claimTaskUpdate (cfg : Settings) (now : Int) (worker_id : String) (t : Task) : Task :=
  let ma := normalize_max_attempts t.max_attempts cfg.default_max_attempts
  { t with
    max_attempts := some ma
    state := "running"
    attempt_count := orInt t.attempt_count 0 + 1
    started_at := some now
    updated_at := now
    next_run_at := none
    claimed_by := some worker_id
    claimed_at := some now
    lease_expires_at := some (leaseExpiresAt now (max cfg.task_lease_seconds 10)) }

/-- Embeds `WorkerService._park_task_for_pause`. -/
def parkTaskForPause (now : Int) (t : Task) : Task :=
  { t with
    state := "paused"
    updated_at := now
    next_run_at := none
    claimed_by := none
    claimed_at := none
    lease_expires_at := none }

/-- Embeds `WorkerService._park_task_for_approval`. -/
def parkTaskForApproval (now : Int) (t : Task) : Task :=
  { t with
    state := "blocked"
    updated_at := now
    next_run_at := none
    claimed_by := none
    claimed_at := none
    lease_expires_at := none }

/-- Embeds the success branch of `WorkerService.process_once` finalization
(the `result_data` bag itself is not modelled). -/
def completeTask (now : Int) (t : Task) : Task :=
  { t with
    state := "completed"
    error_message := none
    completed_at := some now
    updated_at := now
    claimed_by := none
    claimed_at := none
    lease_expires_at := none
    next_run_at := none }

/-- Embeds the timeout and stale-lease branches of
`WorkerService._reap_stale_running_tasks`: increment the attempt counter and
route through the retry/dead-letter path. -/
def reapThroughRetry (cfg : Settings) (now : Int) (message : String) (t : Task) : Task :=
  finalizeRetryOrDeadLetter cfg now message
    { t with attempt_count := orInt t.attempt_count 0 + 1 }

/-! Per-task transitions performed by `evercore/services/ticket_service.py`
(`pause_ticket`, `resume_ticket`, `request_approval`, `approve_ticket`). -/

/-- Embeds the per-task loop body of `TicketService.pause_ticket`. -/
def pauseTaskTransition (now : Int) (t : Task) : Task :=
  if t.state = "queued" ∨ t.state = "retrying" ∨ t.state = "blocked" then
    { t with state := "paused", next_run_at := none, updated_at := now }
  else if t.state = "running" then
    { t with cancel_requested := true, cancel_requested_at := some now, updated_at := now }
  else
    t

/-- Embeds the per-task loop body of `TicketService.resume_ticket`;
`approval_pending` is the resumed ticket's
`approval_required and approval_status == "pending"` condition. -/
def resumeTaskTransition (now : Int) (approval_pending : Bool) (t : Task) : Task :=
  if t.state ≠ "paused" then t
  else if approval_pending then
    { t with state := "blocked", next_run_at := none, updated_at := now }
  else
    { t with state := "queued", next_run_at := some now, updated_at := now }

/-- Embeds the per-task loop body of `TicketService.request_approval`. -/
def requestApprovalTaskTransition (now : Int) (t : Task) : Task :=
  if t.state = "queued" ∨ t.state = "retrying" then
    { t with state := "blocked", next_run_at := none, updated_at := now }
  else
    t

/-- Embeds the per-task loop body of `TicketService.approve_ticket` (which
runs only when the ticket is not paused). -/
def approveTaskTransition (now : Int) (t : Task) : Task :=
  if t.state = "blocked" then
    { t with state := "queued", next_run_at := some now, updated_at := now }
  else
    t

/-- Embeds the cancel-request write performed by the lease renewer loop and by
the cancellation API (`cancel_requested` is set without changing the state). -/
def requestCancelTransition (now : Int) (t : Task) : Task :=
  { t with cancel_requested := true, cancel_requested_at := some now, updated_at := now }

/-! A task-level step relation: every mutation of a task row made by the
worker service or the ticket service, as one inductive of operations.  Used
to prove the reachable-state invariant of claim C1. -/

/-- One task-row mutation of the engine. -/
inductive TaskOp where
  | terminalFailure (now : Int) (message : String)
  | cancelled (now : Int)
  | retryOrDeadLetter (cfg : Settings) (now : Int) (message : String)
  | deferred (cfg : Settings) (now : Int) (message : String) (defer_seconds : Option Int)
  | claim (cfg : Settings) (now : Int) (worker_id : String)
  | complete (now : Int)
  | parkPause (now : Int)
  | parkApproval (now : Int)
  | reap (cfg : Settings) (now : Int) (message : String)
  | ticketPause (now : Int)
  | ticketResume (now : Int) (approval_pending : Bool)
  | ticketRequestApproval (now : Int)
  | ticketApprove (now : Int)
  | requestCancel (now : Int)

/-- Apply one engine mutation to a task row. -/
def applyTaskOp (t : Task) : TaskOp → Task
  | .terminalFailure now message => markTaskTerminalFailure now message t
  | .cancelled now => markTaskCancelled now t
  | .retryOrDeadLetter cfg now message => finalizeRetryOrDeadLetter cfg now message t
  | .deferred cfg now message ds => finalizeDeferredTask cfg now message ds t
  | .claim cfg now wid => claimTaskUpdate cfg now wid t
  | .complete now => completeTask now t
  | .parkPause now => parkTaskForPause now t
  | .parkApproval now => parkTaskForApproval now t
  | .reap cfg now message => reapThroughRetry cfg now message t
  | .ticketPause now => pauseTaskTransition now t
  | .ticketResume now ap => resumeTaskTransition now ap t
  | .ticketRequestApproval now => requestApprovalTaskTransition now t
  | .ticketApprove now => approveTaskTransition now t
  | .requestCancel now => requestCancelTransition now t

/-! Embedding of `WorkerService._claim_next_task` and its repository
queries, over a database snapshot of task, ticket and dependency rows. -/

/-- Database snapshot visible to one claim step. -/
structure DbState where
  tasks : List Task
  tickets : List Ticket
  deps : List TaskDependency
  deriving DecidableEq

/-- Embeds `repositories.get_ticket_by_ticket_id`. -/
def getTicketByTicketId (tickets : List Ticket) (ticket_id : String) : Option Ticket :=
  tickets.find? fun tk => tk.ticket_id == ticket_id

/-- Embeds `repositories.get_task`. -/
def getTask (tasks : List Task) (task_id : Nat) : Option Task :=
  tasks.find? fun t => t.id == task_id

/-- Embeds `repositories.list_dependencies`. -/
def listDependencies (deps : List TaskDependency) (task_id : Nat) : List TaskDependency :=
  deps.filter fun d => d.task_id == task_id

/-- Embeds `WorkerService._dependencies_satisfied`: every row the task
depends on exists and is `completed` (an empty dependency list passes). -/
def dependenciesSatisfied (tasks : List Task) (deps : List TaskDependency) (task_id : Nat) :
    Bool :=
  (listDependencies deps task_id).all fun d =>
    match getTask tasks d.depends_on_task_id with
    | none => false
    | some dt => dt.state == "completed"

/-- Embeds the candidate query of `_claim_next_task`: state `queued` or
`retrying`, `next_run_at` null or not after `now`, and `cancel_requested`
not true. -/
def eligibleForClaim (now : Int) (t : Task) : Bool :=
  (t.state == "queued" || t.state == "retrying")
  && (match t.next_run_at with
      | none => true
      | some nr => decide (nr ≤ now))
  && !t.cancel_requested

/-- Embeds the candidate list of `_claim_next_task`: the eligible rows in
`created_at` ascending order (`ORDER BY created_at ASC`, modelled by a
stable sort). -/
def claimCandidates (now : Int) (tasks : List Task) : List Task :=
  (tasks.filter (eligibleForClaim now)).insertionSort fun a b => a.created_at ≤ b.created_at

/-- Write one mutated row back into the session's task list. -/
def updateTaskRow (tasks : List Task) (t : Task) : List Task :=
  tasks.map fun u => if u.id == t.id then t else u

/-- Embeds the candidate walk of `_claim_next_task`: terminal-fail candidates
with a missing ticket, park candidates of paused or approval-pending
tickets, claim the first remaining candidate whose dependencies are all
completed.  Mutations of skipped candidates are threaded through the
session's task list, which the dependency check reads. -/
def claimWalk (cfg : Settings) (now : Int) (worker_id : String)
    (tickets : List Ticket) (deps : List TaskDependency) :
    List Task → List Task → List Task × Option Task
  | [], tasks => (tasks, none)
  | c :: rest, tasks =>
    match getTicketByTicketId tickets c.ticket_id with
    | none =>
      claimWalk cfg now worker_id tickets deps rest
        (updateTaskRow tasks (markTaskTerminalFailure now ("missing ticket: " ++ c.ticket_id) c))
    | some tk =>
      if tk.paused then
        claimWalk cfg now worker_id tickets deps rest
          (updateTaskRow tasks (parkTaskForPause now c))
      else if tk.approval_required && (tk.approval_status == "pending") then
        claimWalk cfg now worker_id tickets deps rest
          (updateTaskRow tasks (parkTaskForApproval now c))
      else if dependenciesSatisfied tasks deps c.id then
        (updateTaskRow tasks (claimTaskUpdate cfg now worker_id c),
         some (claimTaskUpdate cfg now worker_id c))
      else
        claimWalk cfg now worker_id tickets deps rest tasks

/-- Embeds `WorkerService._claim_next_task` over a database snapshot. -/
def claimNextTask (cfg : Settings) (now : Int) (worker_id : String) (st : DbState) :
    DbState × Option Task :=
  let result :=
    claimWalk cfg now worker_id st.tickets st.deps (claimCandidates now st.tasks) st.tasks
  ({ st with tasks := result.1 }, result.2)

/-- Relation between the pre-step task list and the walk's threaded task
list: rows keep their position and id, and a row that changed is one of the
walk's mutations, none of which produces a `completed` row. -/
def ClaimWalkRel (o m : Task) : Prop :=
  m.id = o.id ∧ (m = o ∨ m.state ≠ "completed")

instance : IsTotal Task fun a b => a.created_at ≤ b.created_at :=
  ⟨fun a b => le_total a.created_at b.created_at⟩

instance : IsTrans Task fun a b => a.created_at ≤ b.created_at :=
  ⟨fun _ _ _ hab hbc => le_trans hab hbc⟩

/-- Embeds `TicketService.resume_ticket` on an existing ticket: clear the
paused flag, restore the approval-pending presentation or (when the stage is
not `finished`) an active status, and run the per-task loop over the
ticket's tasks. -/
def resumeTicket (now : Int) (ticket : Ticket) (tasks : List Task) : Ticket × List Task :=
  let approval_pending := ticket.approval_required && (ticket.approval_status == "pending")
  let ticket2 :=
    if approval_pending then
      { ticket with
        paused := false
        resumed_at := some now
        stage := "pending_approval"
        status := "waiting_approval"
        updated_at := now }
    else if ticket.stage ≠ "finished" then
      { ticket with
        paused := false
        resumed_at := some now
        status := "active"
        updated_at := now }
    else
      { ticket with paused := false, resumed_at := some now, updated_at := now }
  (ticket2, tasks.map (resumeTaskTransition now approval_pending))

/-! Embedding of `evercore/services/scheduler_service.py` (the parts claim
C10 is about). -/

/-- Embeds `SchedulerService._run_schedule`, restricted to the schedule-row
mutation; the materialized ticket and first task are modelled only through
the fired-schedule count of `processDueSchedules`. -/
def runScheduleRow (now : Int) (s : TicketSchedule) : TicketSchedule :=
  match s.interval_seconds with
  | some iv =>
    if 0 < iv then
      { s with
        last_run_at := some now
        next_run_at := some (now + iv)
        active := true
        updated_at := now }
    else
      { s with
        last_run_at := some now
        next_run_at := none
        active := false
        updated_at := now }
  | none =>
    { s with
      last_run_at := some now
      next_run_at := none
      active := false
      updated_at := now }

/-- Embeds the due-schedule query of `process_due_schedules`: active rows
with a non-null `next_run_at` not after `now`, ordered by `next_run_at`
ascending (modelled by a stable sort). -/
def dueSchedules (now : Int) (schedules : List TicketSchedule) : List TicketSchedule :=
  ((schedules.filter fun s =>
      s.active && (match s.next_run_at with
        | some nr => decide (nr ≤ now)
        | none => false)).insertionSort
    fun a b => a.next_run_at.getD 0 ≤ b.next_run_at.getD 0)

/-- Embeds `SchedulerService.process_due_schedules`: select due rows limited
to `max(1, limit)`, fire each, and return how many fired. -/
def processDueSchedules (now : Int) (limit : Int) (schedules : List TicketSchedule) :
    Nat × List TicketSchedule :=
  let due_rows := (dueSchedules now schedules).take (max 1 limit).toNat
  (due_rows.length,
   schedules.map fun s =>
     if due_rows.any fun d => d.id == s.id then runScheduleRow now s else s)

/-! Embedding of the `wait_for_event` executor from
`evercore/executors/registry.py`. -/

/-- Executor result (`execution.ExecutionResult`); the `output` bag is not
modelled. -/
structure ExecutionResult where
  success : Bool
  message : String
  defer : Bool
  defer_seconds : Option Int
  terminal_failure : Bool
  deriving DecidableEq

/-- Embeds `repositories.get_unconsumed_ticket_event`: the oldest (by
`created_at`) unconsumed event of the given type on the ticket.  The SQL
`ORDER BY created_at ASC` is modelled by a stable sort. -/
def getUnconsumedTicketEvent (events : List TicketEvent) (ticket_id event_type : String) :
    Option TicketEvent :=
  ((events.filter fun e =>
      e.ticket_id == ticket_id && e.event_type == event_type && e.consumed_at == none).insertionSort
    fun a b => a.created_at ≤ b.created_at).head?

/-- Embeds `WaitForEventExecutor.execute`.  The short-lived session is
modelled by threading the event list; `now` stands for the `now_utc()`
calls and the row-mutation commits.  `task.created_at` is non-null in the
entity model, so the `task.created_at or now_utc()` fallback reduces to
`task.created_at`. -/
def waitForEventExecute (cfg : Settings) (now : Int) (events : List TicketEvent)
    (ticket : Ticket) (task : Task) : ExecutionResult × List TicketEvent :=
  let event_type := pyStrip (orOptStr task.payload.event_type "")
  if event_type = "" then
    ({ success := false, message := "wait_for_event requires payload.event_type",
       defer := false, defer_seconds := none, terminal_failure := true }, events)
  else
    let consume := task.payload.consume.getD true
    let defer_seconds := orOptInt task.payload.poll_interval_seconds
      cfg.event_wait_poll_interval_seconds
    match getUnconsumedTicketEvent events ticket.ticket_id event_type with
    | some row =>
      let events2 :=
        if consume then
          events.map fun e =>
            if e.id = row.id then
              { e with consumed_at := some now, consumed_by_task_id := some task.id }
            else e
        else events
      ({ success := true, message := "received event " ++ event_type,
         defer := false, defer_seconds := none, terminal_failure := false }, events2)
    | none =>
      let timed_out :=
        match task.payload.timeout_seconds with
        | some ts => decide (task.created_at + max ts 1 ≤ now)
        | none => false
      if timed_out then
        ({ success := false, message := "timed out waiting for event " ++ event_type,
           defer := false, defer_seconds := none, terminal_failure := true }, events)
      else
        ({ success := false, message := "waiting for event " ++ event_type,
           defer := true, defer_seconds := some (max 1 defer_seconds),
           terminal_failure := false }, events)

/-- Sample configuration with the default settings values, used by the
concrete witnesses. -/
def sampleSettings : Settings :=
  { default_max_attempts := 3, retry_base_seconds := 10, retry_max_seconds := 600,
    task_lease_seconds := 300, stale_task_timeout_seconds := 900,
    event_wait_poll_interval_seconds := 15 }

/-- Sample running task on its second attempt with a two-attempt ceiling,
used by the concrete witnesses. -/
def sampleRunningTask : Task :=
  { id := 1, ticket_id := "tkt-a", task_key := "noop", state := "running",
    payload := ⟨none, none, none, none⟩, error_message := none,
    cancel_requested := false, cancel_requested_at := none, attempt_count := 2,
    max_attempts := some 2, retry_base_seconds := none, retry_max_seconds := none,
    timeout_seconds := none, next_run_at := none, claimed_by := some "w",
    claimed_at := some 0, lease_expires_at := some 300, created_at := 0,
    started_at := some 0, completed_at := none, updated_at := 0 }

/-- Sample just-created queued wait-for-event task, used by the concrete
witnesses. -/
def sampleQueuedTask : Task :=
  { id := 2, ticket_id := "tkt-b", task_key := "wait_for_event",
    payload := ⟨some "go", none, none, some 5⟩, state := "queued",
    error_message := none, cancel_requested := false, cancel_requested_at := none,
    attempt_count := 0, max_attempts := some 2, retry_base_seconds := none,
    retry_max_seconds := none, timeout_seconds := none, next_run_at := none,
    claimed_by := none, claimed_at := none, lease_expires_at := none,
    created_at := 0, started_at := none, completed_at := none, updated_at := 0 }

/-- Sample ticket owning `sampleQueuedTask`, used by the concrete witnesses. -/
def sampleTicketB : Ticket :=
  { ticket_id := "tkt-b", stage := "running", status := "active", paused := false,
    resumed_at := none, approval_required := false, approval_status := "none",
    completed_at := none, updated_at := 0 }

/-- Sample wait-for-event task with `timeout_seconds = 0`, used by the
counterexample to claim C4. -/
def sampleZeroTimeoutTask : Task :=
  { sampleQueuedTask with id := 3, payload := ⟨some "go", some 0, none, none⟩ }

/-- Sample paused ticket whose stage already reads `finished`, used by the
counterexample to claim C7. -/
def sampleFinishedPausedTicket : Ticket :=
  { ticket_id := "tkt-c", stage := "finished", status := "paused", paused := true,
    resumed_at := none, approval_required := false, approval_status := "none",
    completed_at := some 10, updated_at := 0 }

/-- Sample paused mid-workflow ticket, used by the C7 witness. -/
def samplePausedTicket : Ticket :=
  { ticket_id := "tkt-d", stage := "running", status := "paused", paused := true,
    resumed_at := none, approval_required := false, approval_status := "none",
    completed_at := none, updated_at := 0 }

/-- Sample paused task on the sample paused ticket, used by the C7 witness. -/
def samplePausedTask : Task :=
  { sampleQueuedTask with id := 4, ticket_id := "tkt-d", state := "paused" }

/-- Sample completed predecessor task, used by the C5 witness. -/
def samplePredecessorTask : Task :=
  { sampleQueuedTask with id := 10, state := "completed", completed_at := some 3 }

/-- Sample queued task depending on the predecessor, used by the C5 witness. -/
def sampleDependentTask : Task :=
  { sampleQueuedTask with id := 11, created_at := 1 }

/-- Sample database snapshot for the C5 witness: a claimable dependent task
whose only predecessor is completed. -/
def sampleClaimState : DbState :=
  { tasks := [samplePredecessorTask, sampleDependentTask]
    tickets := [sampleTicketB]
    deps := [⟨11, 10⟩] }

/-- Sample due recurring schedule, used by the C10 witness. -/
def sampleSchedule : TicketSchedule :=
  { id := 1, schedule_key := "daily", active := true, next_run_at := some 0,
    interval_seconds := some 60, task_key := some "noop", last_run_at := none,
    updated_at := 0 }

/-- Spec-side formula for `normalize_max_attempts`, written from the spec's words
`max(value or default, 1)` with Python falsiness (`None` and `0` both select the
default).  Compared against the source-derived `normalize_max_attempts`. -/
def normalizeMaxAttemptsSpec (value : Option Int) (default_max_attempts : Int) : Int :=
  max (orOptInt value default_max_attempts) 1

end Evercore

namespace Evercore

/-! Theorems for the retry-delay helper (claim C6) and max-attempts
normalization (claim C8). -/

theorem orInt_zero (x : Int) : orInt x 0 = x := by
  unfold orInt; split <;> omega

theorem normalize_max_attempts_pos (value : Option Int) (d : Int) :
    1 ≤ normalize_max_attempts value d := by
  cases value <;> dsimp only [normalize_max_attempts, orInt] <;> (try split) <;> omega

/-- Retry delay at attempt 1 with base and maximum both equal to a positive
delay is that delay itself. -/
theorem compute_retry_delay_self (rd : Int) (h : 1 ≤ rd) :
    compute_retry_delay_seconds 1 rd rd = rd := by
  have h0 : rd ≠ 0 := by omega
  unfold compute_retry_delay_seconds orOptInt orInt
  simp only [h0, if_false]
  have h1 : max rd 1 = rd := by omega
  rw [h1]
  norm_num

/-- The dead-letter invariant of claim C1: a dead-lettered row records a
normalized attempt ceiling not exceeding its attempt counter. -/
def DeadLetterInv (t : Task) : Prop :=
  t.state = "dead_letter" → ∃ v, t.max_attempts = some v ∧ v ≤ t.attempt_count

theorem finalizeRetryOrDeadLetter_inv (cfg : Settings) (now : Int) (message : String)
    (t : Task) : DeadLetterInv (finalizeRetryOrDeadLetter cfg now message t) := by
  unfold DeadLetterInv
  intro hs
  by_cases hc : should_dead_letter (orInt t.attempt_count 0)
      (normalize_max_attempts t.max_attempts cfg.default_max_attempts) = true
  · refine ⟨normalize_max_attempts t.max_attempts cfg.default_max_attempts, ?_, ?_⟩
    · simp [finalizeRetryOrDeadLetter, hc]
    · simp only [finalizeRetryOrDeadLetter, hc, if_true]
      simp only [should_dead_letter, decide_eq_true_eq, orInt_zero] at hc
      have := normalize_max_attempts_pos t.max_attempts cfg.default_max_attempts
      omega
  · exfalso
    simp [finalizeRetryOrDeadLetter, hc] at hs

theorem applyTaskOp_preserves_inv (t : Task) (op : TaskOp) (h : DeadLetterInv t) :
    DeadLetterInv (applyTaskOp t op) := by
  cases op with
  | terminalFailure now message => intro hs; simp [applyTaskOp, markTaskTerminalFailure] at hs
  | cancelled now => intro hs; simp [applyTaskOp, markTaskCancelled] at hs
  | retryOrDeadLetter cfg now message =>
    exact finalizeRetryOrDeadLetter_inv cfg now message t
  | deferred cfg now message ds => intro hs; simp [applyTaskOp, finalizeDeferredTask] at hs
  | claim cfg now wid => intro hs; simp [applyTaskOp, claimTaskUpdate] at hs
  | complete now => intro hs; simp [applyTaskOp, completeTask] at hs
  | parkPause now => intro hs; simp [applyTaskOp, parkTaskForPause] at hs
  | parkApproval now => intro hs; simp [applyTaskOp, parkTaskForApproval] at hs
  | reap cfg now message =>
    exact finalizeRetryOrDeadLetter_inv cfg now message _
  | ticketPause now =>
    intro hs
    simp only [applyTaskOp, pauseTaskTransition] at hs ⊢
    by_cases h1 : t.state = "queued" ∨ t.state = "retrying" ∨ t.state = "blocked"
    · simp [h1] at hs
    · by_cases h2 : t.state = "running"
      · simp [h1, h2] at hs
      · simp only [if_neg h1, if_neg h2] at hs ⊢
        exact h hs
  | ticketResume now ap =>
    intro hs
    simp only [applyTaskOp, resumeTaskTransition] at hs ⊢
    by_cases h1 : t.state ≠ "paused"
    · simp only [if_pos h1] at hs ⊢
      exact h hs
    · cases ap <;> simp [h1] at hs
  | ticketRequestApproval now =>
    intro hs
    simp only [applyTaskOp, requestApprovalTaskTransition] at hs ⊢
    by_cases h1 : t.state = "queued" ∨ t.state = "retrying"
    · simp [h1] at hs
    · simp only [if_neg h1] at hs ⊢
      exact h hs
  | ticketApprove now =>
    intro hs
    simp only [applyTaskOp, approveTaskTransition] at hs ⊢
    by_cases h1 : t.state = "blocked"
    · simp [h1] at hs
    · simp only [if_neg h1] at hs ⊢
      exact h hs
  | requestCancel now =>
    intro hs
    exact h hs

theorem foldl_applyTaskOp_inv (ops : List TaskOp) :
    ∀ t : Task, DeadLetterInv t → DeadLetterInv (ops.foldl applyTaskOp t) := by
  induction ops with
  | nil => intro t h; exact h
  | cons op rest ih =>
    intro t h
    exact ih (applyTaskOp t op) (applyTaskOp_preserves_inv t op h)

/-- Claim C1: finalizing an ordinary failure routes the task to exactly one of
`dead_letter` (when the attempt counter has reached `max(max_attempts, 1)`) or
`retrying` with `next_run_at = now + compute_retry_delay_seconds(attempt_count,
base, max)`, `completed_at` cleared and the claim/lease fields cleared; and in
every state reachable through engine task mutations from a non-dead-lettered
row, `state = dead_letter` implies `attempt_count ≥ max_attempts`. -/
theorem failure_finalization_routes_retry_or_dead_letter :
    (∀ (cfg : Settings) (now : Int) (message : String) (t : Task) (v : Int),
      t.max_attempts = some v →
        (max v 1 ≤ t.attempt_count →
          (finalizeRetryOrDeadLetter cfg now message t).state = "dead_letter")
        ∧ (t.attempt_count < max v 1 →
          (finalizeRetryOrDeadLetter cfg now message t).state = "retrying"
          ∧ (finalizeRetryOrDeadLetter cfg now message t).next_run_at
              = some (now + compute_retry_delay_seconds t.attempt_count
                  (retryPolicy cfg t).1 (retryPolicy cfg t).2)
          ∧ (finalizeRetryOrDeadLetter cfg now message t).completed_at = none
          ∧ (finalizeRetryOrDeadLetter cfg now message t).claimed_by = none
          ∧ (finalizeRetryOrDeadLetter cfg now message t).claimed_at = none
          ∧ (finalizeRetryOrDeadLetter cfg now message t).lease_expires_at = none))
    ∧ (∀ (init : Task) (ops : List TaskOp),
        init.state ≠ "dead_letter" →
        (ops.foldl applyTaskOp init).state = "dead_letter" →
        ∃ v, (ops.foldl applyTaskOp init).max_attempts = some v
          ∧ v ≤ (ops.foldl applyTaskOp init).attempt_count) := by
  constructor
  · intro cfg now message t v hv
    have hcond : should_dead_letter (orInt t.attempt_count 0)
        (normalize_max_attempts t.max_attempts cfg.default_max_attempts)
        = decide (max v 1 ≤ t.attempt_count) := by
      rw [hv]
      simp only [should_dead_letter, normalize_max_attempts, orInt_zero]
      have hmm : max (max v 1) 1 = max v 1 := by omega
      rw [hmm]
    constructor
    · intro hle
      simp only [finalizeRetryOrDeadLetter]
      rw [hcond]
      simp [hle]
    · intro hlt
      simp only [finalizeRetryOrDeadLetter]
      rw [hcond]
      have hnot : ¬ (max v 1 ≤ t.attempt_count) := by omega
      simp only [hnot, decide_False, if_false]
      refine ⟨rfl, ?_, rfl, rfl, rfl, rfl⟩
      simp only [compute_next_retry_at, orInt_zero]
      rfl
  · intro init ops hinit
    exact foldl_applyTaskOp_inv ops init (fun hs => absurd hs hinit)

/-- Witness for claim C1: a task finalized on its second failure with a
two-attempt ceiling is dead-lettered. -/
theorem failure_finalization_witness :
    sampleRunningTask.max_attempts = some 2
    ∧ max (2 : Int) 1 ≤ sampleRunningTask.attempt_count
    ∧ (finalizeRetryOrDeadLetter sampleSettings 7 "boom" sampleRunningTask).state
        = "dead_letter" :=
  ⟨rfl, by decide,
   (failure_finalization_routes_retry_or_dead_letter.1
      sampleSettings 7 "boom" sampleRunningTask 2 rfl).1 (by decide)⟩

theorem claim_then_defer_attempt_count (cfg : Settings) (now : Int) (message : String)
    (ds : Option Int) (wid : String) (u : Task) (h : 0 ≤ u.attempt_count) :
    (finalizeDeferredTask cfg now message ds (claimTaskUpdate cfg now wid u)).attempt_count
      = u.attempt_count := by
  simp only [finalizeDeferredTask, claimTaskUpdate, orInt]
  split <;> split <;> omega

/-- Claim C3: finalizing a `defer=true` outcome moves the task to `retrying`,
decrements `attempt_count` by one clamped at zero, sets `next_run_at` to
`now + max(defer_seconds or the default poll interval, 1)`, clears the
claim/lease fields, and — because claiming increments `attempt_count` — a
claim followed by a defer finalization leaves `attempt_count` unchanged
across any finite sequence of such rounds. -/
theorem deferral_does_not_burn_attempts (cfg : Settings) (now : Int) (message : String)
    (ds : Option Int) (wid : String) (t : Task) (h : 0 ≤ t.attempt_count) :
    (finalizeDeferredTask cfg now message ds t).state = "retrying"
    ∧ (finalizeDeferredTask cfg now message ds t).attempt_count
        = max (t.attempt_count - 1) 0
    ∧ (finalizeDeferredTask cfg now message ds t).next_run_at
        = some (now + max (orOptInt ds cfg.event_wait_poll_interval_seconds) 1)
    ∧ (finalizeDeferredTask cfg now message ds t).claimed_by = none
    ∧ (finalizeDeferredTask cfg now message ds t).claimed_at = none
    ∧ (finalizeDeferredTask cfg now message ds t).lease_expires_at = none
    ∧ ∀ rounds : List (Int × Option Int),
        (rounds.foldl
          (fun u p => finalizeDeferredTask cfg p.1 message p.2 (claimTaskUpdate cfg p.1 wid u))
          t).attempt_count = t.attempt_count := by
  refine ⟨rfl, ?_, ?_, rfl, rfl, rfl, ?_⟩
  · simp only [finalizeDeferredTask, orInt]
    split <;> omega
  · simp only [finalizeDeferredTask, compute_next_retry_at]
    rw [compute_retry_delay_self _ (by omega)]
  · intro rounds
    induction rounds generalizing t with
    | nil => rfl
    | cons p rest ih =>
      have hstep := claim_then_defer_attempt_count cfg p.1 message p.2 wid t h
      have hnext : 0 ≤ (finalizeDeferredTask cfg p.1 message p.2
          (claimTaskUpdate cfg p.1 wid t)).attempt_count := by rw [hstep]; exact h
      simpa [hstep] using ih _ hnext

/-- Witness for claim C3 at a fresh queued task with `attempt_count = 0`: one
claim-then-defer round at clock 100 leaves the attempt counter at zero. -/
theorem deferral_does_not_burn_attempts_witness :
    (0 : Int) ≤ sampleQueuedTask.attempt_count
    ∧ ([((100 : Int), (some 5 : Option Int))].foldl
        (fun u p => finalizeDeferredTask sampleSettings p.1 "waiting" p.2
          (claimTaskUpdate sampleSettings p.1 "w" u))
        sampleQueuedTask).attempt_count = sampleQueuedTask.attempt_count :=
  ⟨by decide,
   (deferral_does_not_burn_attempts sampleSettings 100 "waiting" (some 5) "w"
      sampleQueuedTask (by decide)).2.2.2.2.2.2 [((100 : Int), some 5)]⟩

/-- Claim C9 (implicit): every task row written by a worker-service operation
whose resulting state is not `running` has `claimed_by`, `claimed_at` and
`lease_expires_at` all null, and the `failed`, `dead_letter` and `cancelled`
outcomes — like `completed` — stamp `completed_at` with the finalization
time. -/
theorem nonrunning_worker_writes_clear_claim_fields :
    (∀ (now : Int) (message : String) (t : Task),
      (markTaskTerminalFailure now message t).state = "failed"
      ∧ (markTaskTerminalFailure now message t).claimed_by = none
      ∧ (markTaskTerminalFailure now message t).claimed_at = none
      ∧ (markTaskTerminalFailure now message t).lease_expires_at = none
      ∧ (markTaskTerminalFailure now message t).completed_at = some now)
    ∧ (∀ (now : Int) (t : Task),
      (markTaskCancelled now t).state = "cancelled"
      ∧ (markTaskCancelled now t).claimed_by = none
      ∧ (markTaskCancelled now t).claimed_at = none
      ∧ (markTaskCancelled now t).lease_expires_at = none
      ∧ (markTaskCancelled now t).completed_at = some now)
    ∧ (∀ (cfg : Settings) (now : Int) (message : String) (t : Task),
      (finalizeRetryOrDeadLetter cfg now message t).claimed_by = none
      ∧ (finalizeRetryOrDeadLetter cfg now message t).claimed_at = none
      ∧ (finalizeRetryOrDeadLetter cfg now message t).lease_expires_at = none
      ∧ (finalizeRetryOrDeadLetter cfg now message t).state
          = (if should_dead_letter (orInt t.attempt_count 0)
                (normalize_max_attempts t.max_attempts cfg.default_max_attempts)
             then "dead_letter" else "retrying")
      ∧ (finalizeRetryOrDeadLetter cfg now message t).completed_at
          = (if should_dead_letter (orInt t.attempt_count 0)
                (normalize_max_attempts t.max_attempts cfg.default_max_attempts)
             then some now else none))
    ∧ (∀ (cfg : Settings) (now : Int) (message : String) (ds : Option Int) (t : Task),
      (finalizeDeferredTask cfg now message ds t).state = "retrying"
      ∧ (finalizeDeferredTask cfg now message ds t).claimed_by = none
      ∧ (finalizeDeferredTask cfg now message ds t).claimed_at = none
      ∧ (finalizeDeferredTask cfg now message ds t).lease_expires_at = none)
    ∧ (∀ (now : Int) (t : Task),
      (parkTaskForPause now t).state = "paused"
      ∧ (parkTaskForPause now t).claimed_by = none
      ∧ (parkTaskForPause now t).claimed_at = none
      ∧ (parkTaskForPause now t).lease_expires_at = none)
    ∧ (∀ (now : Int) (t : Task),
      (parkTaskForApproval now t).state = "blocked"
      ∧ (parkTaskForApproval now t).claimed_by = none
      ∧ (parkTaskForApproval now t).claimed_at = none
      ∧ (parkTaskForApproval now t).lease_expires_at = none)
    ∧ (∀ (now : Int) (t : Task),
      (completeTask now t).state = "completed"
      ∧ (completeTask now t).claimed_by = none
      ∧ (completeTask now t).claimed_at = none
      ∧ (completeTask now t).lease_expires_at = none
      ∧ (completeTask now t).completed_at = some now) := by
  refine ⟨fun now message t => ⟨rfl, rfl, rfl, rfl, rfl⟩,
          fun now t => ⟨rfl, rfl, rfl, rfl, rfl⟩,
          fun cfg now message t => ?_,
          fun cfg now message ds t => ⟨rfl, rfl, rfl, rfl⟩,
          fun now t => ⟨rfl, rfl, rfl, rfl⟩,
          fun now t => ⟨rfl, rfl, rfl, rfl⟩,
          fun now t => ⟨rfl, rfl, rfl, rfl, rfl⟩⟩
  simp only [finalizeRetryOrDeadLetter]
  split <;> exact ⟨rfl, rfl, rfl, rfl, rfl⟩

/-- Claim C2: the ticket state policy is a pure resolver returning, in priority
order: the paused tuple, the pending-approval tuple, the rejected-approval
tuple, the empty-task-list tuple, the failed-or-dead-letter tuple, the
all-completed tuple, and otherwise the running default. -/
theorem ticket_state_policy_matches_spec (now : Int) (ticket : Ticket) (tasks : List Task) :
    resolveTicketState now ticket tasks = resolveTicketStateSpec now ticket tasks := by
  simp only [resolveTicketState, resolveTicketStateSpec]
  split_ifs <;> rfl

theorem compute_retry_delay_closed_form (n b m : Int) (hb : 1 ≤ b) :
    compute_retry_delay_seconds n b m
      = min (max m b) (b * 2 ^ (max 0 (n - 1)).toNat) := by
  have hb0 : b ≠ 0 := by omega
  unfold compute_retry_delay_seconds orOptInt orInt
  simp only [hb0, if_false]
  have hbase : max b 1 = b := by omega
  rw [hbase]
  by_cases hm : m = 0 <;> simp only [hm, reduceIte, if_false] <;>
    · generalize b * 2 ^ (max 0 (n - 1)).toNat = e
      omega

theorem retry_delay_pow_mono (b : Int) (hb : 1 ≤ b) {n n2 : Int} (h : n ≤ n2) :
    b * 2 ^ (max 0 (n - 1)).toNat ≤ b * 2 ^ (max 0 (n2 - 1)).toNat := by
  have hk : (max 0 (n - 1)).toNat ≤ (max 0 (n2 - 1)).toNat := by omega
  have hp : (2 : Int) ^ (max 0 (n - 1)).toNat ≤ 2 ^ (max 0 (n2 - 1)).toNat :=
    pow_le_pow_right (by omega) hk
  exact mul_le_mul_of_nonneg_left hp (by omega)

/-- Claim C6: for `n ≥ 0` and `b ≥ 1`, `compute_retry_delay_seconds n b m` equals
`min(max(m, b), b * 2 ^ max(0, n - 1))`, the result lies in `[b, m]` whenever
`m ≥ b`, and the result is monotonically non-decreasing in `n`. -/
theorem retry_delay_formula_bounds_mono (n b m : Int) (hn : 0 ≤ n) (hb : 1 ≤ b) :
    compute_retry_delay_seconds n b m
        = min (max m b) (b * 2 ^ (max 0 (n - 1)).toNat)
      ∧ (b ≤ m →
          b ≤ compute_retry_delay_seconds n b m
            ∧ compute_retry_delay_seconds n b m ≤ m)
      ∧ (∀ n2, n ≤ n2 →
          compute_retry_delay_seconds n b m ≤ compute_retry_delay_seconds n2 b m) := by
  refine ⟨compute_retry_delay_closed_form n b m hb, ?_, ?_⟩
  · intro hbm
    rw [compute_retry_delay_closed_form n b m hb]
    have h1 : (1 : Int) ≤ 2 ^ (max 0 (n - 1)).toNat := one_le_pow₀ (by norm_num)
    have hbb : b ≤ b * 2 ^ (max 0 (n - 1)).toNat := by
      calc b = b * 1 := by ring
        _ ≤ b * 2 ^ (max 0 (n - 1)).toNat := mul_le_mul_of_nonneg_left h1 (by omega)
    constructor
    · omega
    · omega
  · intro n2 hn2
    rw [compute_retry_delay_closed_form n b m hb,
        compute_retry_delay_closed_form n2 b m hb]
    have := retry_delay_pow_mono b hb hn2
    omega

/-- Witness for claim C6 at `n = 3`, `b = 2`, `m = 600`. -/
theorem retry_delay_formula_bounds_mono_witness :
    (0 : Int) ≤ 3 ∧ (1 : Int) ≤ 2
      ∧ (compute_retry_delay_seconds 3 2 600
            = min (max 600 2) (2 * 2 ^ (max 0 (3 - 1) : Int).toNat)
          ∧ ((2 : Int) ≤ 600 →
              2 ≤ compute_retry_delay_seconds 3 2 600
                ∧ compute_retry_delay_seconds 3 2 600 ≤ 600)
          ∧ (∀ n2, 3 ≤ n2 →
              compute_retry_delay_seconds 3 2 600 ≤ compute_retry_delay_seconds n2 2 600)) :=
  ⟨by decide, by decide, retry_delay_formula_bounds_mono 3 2 600 (by decide) (by decide)⟩

/-- Counterexample for claim C4: a `wait_for_event` task with
`timeout_seconds = 0`, no matching event and `now = task.created_at`
satisfies the claim's timeout condition `now ≥ created_at + timeout_seconds`,
yet the code defers instead of returning a terminal failure, because the
timeout is clamped to at least one second. -/
theorem wait_for_event_timeout_clamp_counterexample :
    sampleZeroTimeoutTask.payload.timeout_seconds = some 0
    ∧ sampleZeroTimeoutTask.created_at + 0 ≤ 0
    ∧ getUnconsumedTicketEvent [] "tkt-b" "go" = none
    ∧ (waitForEventExecute sampleSettings 0 [] sampleTicketB sampleZeroTimeoutTask).1.terminal_failure
        = false
    ∧ (waitForEventExecute sampleSettings 0 [] sampleTicketB sampleZeroTimeoutTask).1.defer
        = true := by
  refine ⟨rfl, by decide, rfl, rfl, rfl⟩

/-- Claim C4 (amended): a blank or absent `payload.event_type` yields a
terminal failure; with no unconsumed event of that type, a set
`timeout_seconds` yields a terminal failure once
`now ≥ created_at + max(timeout_seconds, 1)`, and otherwise the result defers
with `defer_seconds = max(1, poll_interval_seconds or the configured default
poll interval)` (the default also replacing a zero poll interval). -/
theorem wait_for_event_failure_and_deferral (cfg : Settings) (now : Int)
    (events : List TicketEvent) (ticket : Ticket) (task : Task) :
    (pyStrip (orOptStr task.payload.event_type "") = "" →
      (waitForEventExecute cfg now events ticket task).1.terminal_failure = true
      ∧ (waitForEventExecute cfg now events ticket task).1.success = false)
    ∧ (pyStrip (orOptStr task.payload.event_type "") ≠ "" →
       getUnconsumedTicketEvent events ticket.ticket_id
           (pyStrip (orOptStr task.payload.event_type "")) = none →
       (∀ ts, task.payload.timeout_seconds = some ts →
          task.created_at + max ts 1 ≤ now →
          (waitForEventExecute cfg now events ticket task).1.terminal_failure = true)
       ∧ ((match task.payload.timeout_seconds with
           | some ts => now < task.created_at + max ts 1
           | none => True) →
          (waitForEventExecute cfg now events ticket task).1.defer = true
          ∧ (waitForEventExecute cfg now events ticket task).1.defer_seconds
              = some (max 1 (orOptInt task.payload.poll_interval_seconds
                  cfg.event_wait_poll_interval_seconds)))) := by
  constructor
  · intro hblank
    simp [waitForEventExecute, hblank]
  · intro hblank hnone
    constructor
    · intro ts hts htime
      simp only [waitForEventExecute, if_neg hblank, hnone, hts]
      simp [htime]
    · intro hnotime
      simp only [waitForEventExecute, if_neg hblank, hnone]
      cases hcase : task.payload.timeout_seconds with
      | none => simp
      | some ts =>
        rw [hcase] at hnotime
        have : ¬ (task.created_at + max ts 1 ≤ now) := by omega
        simp [this]

/-- Witness for claim C4: the sample queued `wait_for_event` task with no
matching event and no timeout defers with its five-second poll interval. -/
theorem wait_for_event_failure_and_deferral_witness :
    pyStrip (orOptStr sampleQueuedTask.payload.event_type "") ≠ ""
    ∧ getUnconsumedTicketEvent [] sampleTicketB.ticket_id
        (pyStrip (orOptStr sampleQueuedTask.payload.event_type "")) = none
    ∧ ((waitForEventExecute sampleSettings 50 [] sampleTicketB sampleQueuedTask).1.defer = true
       ∧ (waitForEventExecute sampleSettings 50 [] sampleTicketB sampleQueuedTask).1.defer_seconds
           = some (max 1 (orOptInt sampleQueuedTask.payload.poll_interval_seconds
               sampleSettings.event_wait_poll_interval_seconds))) :=
  ⟨by decide, by decide,
   ((wait_for_event_failure_and_deferral sampleSettings 50 [] sampleTicketB
      sampleQueuedTask).2 (by decide) (by decide)).2 (by exact trivial)⟩

theorem updateTaskRow_rel (t2 : Task) (hstate : t2.state ≠ "completed") :
    ∀ {orig mid : List Task}, List.Forall₂ ClaimWalkRel orig mid →
      List.Forall₂ ClaimWalkRel orig (updateTaskRow mid t2) := by
  intro orig mid h
  induction h with
  | nil => exact List.Forall₂.nil
  | @cons o m l1 l2 h1 h2 ih =>
    simp only [updateTaskRow, List.map_cons] at ih ⊢
    refine List.Forall₂.cons ?_ ih
    by_cases hid : (m.id == t2.id) = true
    · rw [if_pos hid]
      simp only [beq_iff_eq] at hid
      exact ⟨hid ▸ h1.1, Or.inr hstate⟩
    · rw [if_neg hid]
      exact h1

theorem getTask_rel {orig mid : List Task} (h : List.Forall₂ ClaimWalkRel orig mid)
    (i : Nat) (u : Task) (hu : getTask mid i = some u) (hc : u.state = "completed") :
    getTask orig i = some u := by
  induction h with
  | nil => simp [getTask] at hu
  | @cons o m l1 l2 h1 h2 ih =>
    rw [getTask, List.find?_cons_eq_some] at hu
    rw [getTask, List.find?_cons_eq_some]
    rcases hu with ⟨hpm, rfl⟩ | ⟨hpm, hrest⟩
    · rcases h1.2 with heq | hne
      · refine Or.inl ⟨?_, heq.symm⟩
        rw [show o.id = m.id from h1.1.symm]
        exact hpm
      · exact absurd hc hne
    · refine Or.inr ⟨?_, ih hrest⟩
      rw [show o.id = m.id from h1.1.symm]
      exact hpm

theorem dependenciesSatisfied_rel {orig mid : List Task}
    (h : List.Forall₂ ClaimWalkRel orig mid) (deps : List TaskDependency) (cid : Nat)
    (hd : dependenciesSatisfied mid deps cid = true) :
    dependenciesSatisfied orig deps cid = true := by
  simp only [dependenciesSatisfied, List.all_eq_true] at hd ⊢
  intro d hdmem
  have hone := hd d hdmem
  cases hg : getTask mid d.depends_on_task_id with
  | none => rw [hg] at hone; simp at hone
  | some u =>
    rw [hg] at hone
    simp only [beq_iff_eq] at hone
    rw [getTask_rel h _ u hg hone]
    simp [hone]

theorem claimWalk_spec (cfg : Settings) (now : Int) (wid : String)
    (tickets : List Ticket) (deps : List TaskDependency) :
    ∀ (cands : List Task) (orig mid : List Task),
      List.Forall₂ ClaimWalkRel orig mid →
      ∀ (tasks2 : List Task) (t : Task),
        claimWalk cfg now wid tickets deps cands mid = (tasks2, some t) →
        ∃ c ∈ cands, t = claimTaskUpdate cfg now wid c
          ∧ dependenciesSatisfied orig deps c.id = true := by
  intro cands
  induction cands with
  | nil =>
    intro orig mid _ tasks2 t hw
    simp [claimWalk] at hw
  | cons c rest ih =>
    intro orig mid hrel tasks2 t hw
    simp only [claimWalk] at hw
    split at hw
    · obtain ⟨c2, hc2, ht, hdep⟩ :=
        ih orig _ (updateTaskRow_rel _ (by simp [markTaskTerminalFailure]) hrel) tasks2 t hw
      exact ⟨c2, List.mem_cons_of_mem c hc2, ht, hdep⟩
    · split at hw
      · obtain ⟨c2, hc2, ht, hdep⟩ :=
          ih orig _ (updateTaskRow_rel _ (by simp [parkTaskForPause]) hrel) tasks2 t hw
        exact ⟨c2, List.mem_cons_of_mem c hc2, ht, hdep⟩
      · split at hw
        · obtain ⟨c2, hc2, ht, hdep⟩ :=
            ih orig _ (updateTaskRow_rel _ (by simp [parkTaskForApproval]) hrel) tasks2 t hw
          exact ⟨c2, List.mem_cons_of_mem c hc2, ht, hdep⟩
        · split at hw
          · rename_i hdep
            refine ⟨c, List.mem_cons_self c rest, ?_,
              dependenciesSatisfied_rel hrel deps c.id hdep⟩
            injection hw with h1 h2
            injection h2 with h3
            exact h3.symm
          · obtain ⟨c2, hc2, ht, hdep2⟩ := ih orig mid hrel tasks2 t hw
            exact ⟨c2, List.mem_cons_of_mem c hc2, ht, hdep2⟩

/-- Claim C5: in a claim step the candidate rows (state `queued` or
`retrying`, `next_run_at` null or due, `cancel_requested` not true) are
walked in `created_at` ascending order, and the claimed task is built from an
eligible candidate every one of whose dependency rows is `completed` in the
pre-step state — so a dependent task never starts before all its
predecessors are completed. -/
theorem claim_ordering_and_dependency_gating (cfg : Settings) (now : Int) (wid : String)
    (st st2 : DbState) (t : Task)
    (h : claimNextTask cfg now wid st = (st2, some t)) :
    List.Sorted (fun a b : Task => a.created_at ≤ b.created_at) (claimCandidates now st.tasks)
    ∧ ∃ c ∈ claimCandidates now st.tasks,
        c ∈ st.tasks
        ∧ eligibleForClaim now c = true
        ∧ t = claimTaskUpdate cfg now wid c
        ∧ ∀ d ∈ listDependencies st.deps c.id,
            ∃ u, getTask st.tasks d.depends_on_task_id = some u
              ∧ u.state = "completed" := by
  constructor
  · exact List.sorted_insertionSort _ _
  · have hrel : List.Forall₂ ClaimWalkRel st.tasks st.tasks :=
      List.forall₂_same.mpr fun x _ => ⟨rfl, Or.inl rfl⟩
    have h2 : (claimWalk cfg now wid st.tickets st.deps
        (claimCandidates now st.tasks) st.tasks).2 = some t := by
      have := congrArg Prod.snd h
      simpa [claimNextTask] using this
    obtain ⟨c, hc, ht, hdep⟩ :=
      claimWalk_spec cfg now wid st.tickets st.deps (claimCandidates now st.tasks)
        st.tasks st.tasks hrel
        (claimWalk cfg now wid st.tickets st.deps (claimCandidates now st.tasks) st.tasks).1 t
        (by rw [← h2])
    have hcmem : c ∈ st.tasks.filter (eligibleForClaim now) := by
      have : c ∈ (st.tasks.filter (eligibleForClaim now)).insertionSort
          (fun a b : Task => a.created_at ≤ b.created_at) := hc
      simpa [List.mem_insertionSort] using this
    have hcfilter := List.mem_filter.mp hcmem
    refine ⟨c, hc, hcfilter.1, hcfilter.2, ht, ?_⟩
    intro d hdmem
    simp only [dependenciesSatisfied, List.all_eq_true] at hdep
    have := hdep d hdmem
    cases hg : getTask st.tasks d.depends_on_task_id with
    | none => rw [hg] at this; simp at this
    | some u =>
      rw [hg] at this
      simp only [beq_iff_eq] at this
      exact ⟨u, rfl, this⟩

/-- Witness for claim C5: in the sample snapshot the dependent queued task is
claimed and its completed predecessor satisfies the dependency gate. -/
theorem claim_ordering_and_dependency_gating_witness :
    claimNextTask sampleSettings 50 "w" sampleClaimState
      = ((claimNextTask sampleSettings 50 "w" sampleClaimState).1,
         some (claimTaskUpdate sampleSettings 50 "w" sampleDependentTask))
    ∧ (List.Sorted (fun a b : Task => a.created_at ≤ b.created_at)
          (claimCandidates 50 sampleClaimState.tasks)
       ∧ ∃ c ∈ claimCandidates 50 sampleClaimState.tasks,
           c ∈ sampleClaimState.tasks
           ∧ eligibleForClaim 50 c = true
           ∧ claimTaskUpdate sampleSettings 50 "w" sampleDependentTask
               = claimTaskUpdate sampleSettings 50 "w" c
           ∧ ∀ d ∈ listDependencies sampleClaimState.deps c.id,
               ∃ u, getTask sampleClaimState.tasks d.depends_on_task_id = some u
                 ∧ u.state = "completed") :=
  ⟨by decide,
   claim_ordering_and_dependency_gating sampleSettings 50 "w" sampleClaimState
     (claimNextTask sampleSettings 50 "w" sampleClaimState).1
     (claimTaskUpdate sampleSettings 50 "w" sampleDependentTask)
     (by decide)⟩

/-- Counterexample for claim C7: resuming a paused ticket whose stage is
`finished` (approval not pending) leaves the status `paused` instead of
setting it to `active`, because the code guards the status write with
`stage != "finished"`. -/
theorem resume_ticket_finished_stage_counterexample :
    sampleFinishedPausedTicket.paused = true
    ∧ (sampleFinishedPausedTicket.approval_required
        && (sampleFinishedPausedTicket.approval_status == "pending")) = false
    ∧ (resumeTicket 5 sampleFinishedPausedTicket []).1.paused = false
    ∧ (resumeTicket 5 sampleFinishedPausedTicket []).1.status = "paused"
    ∧ (resumeTicket 5 sampleFinishedPausedTicket []).1.status ≠ "active" := by
  refine ⟨rfl, rfl, rfl, rfl, by decide⟩

/-- Claim C7 (amended): `resume_ticket` clears the paused flag; if approval is
still pending it restores stage `pending_approval` with status
`waiting_approval` and moves paused tasks to `blocked`; otherwise it sets the
status to `active` only when the ticket's stage is not `finished` (a
finished-stage ticket keeps its status), and in either case moves every task
in state `paused` back to `queued` with `next_run_at = now`. -/
theorem resume_ticket_amended (now : Int) (ticket : Ticket) (tasks : List Task) :
    (resumeTicket now ticket tasks).1.paused = false
    ∧ ((ticket.approval_required && (ticket.approval_status == "pending")) = true →
        (resumeTicket now ticket tasks).1.stage = "pending_approval"
        ∧ (resumeTicket now ticket tasks).1.status = "waiting_approval")
    ∧ ((ticket.approval_required && (ticket.approval_status == "pending")) = false →
        ticket.stage ≠ "finished" →
        (resumeTicket now ticket tasks).1.status = "active")
    ∧ ((ticket.approval_required && (ticket.approval_status == "pending")) = false →
        ticket.stage = "finished" →
        (resumeTicket now ticket tasks).1.status = ticket.status)
    ∧ (resumeTicket now ticket tasks).2
        = tasks.map (resumeTaskTransition now
            (ticket.approval_required && (ticket.approval_status == "pending")))
    ∧ (∀ t : Task, t.state = "paused" →
        (resumeTaskTransition now true t).state = "blocked"
        ∧ (resumeTaskTransition now true t).next_run_at = none
        ∧ (resumeTaskTransition now false t).state = "queued"
        ∧ (resumeTaskTransition now false t).next_run_at = some now)
    ∧ (∀ t : Task, t.state ≠ "paused" → ∀ ap : Bool, resumeTaskTransition now ap t = t) := by
  refine ⟨?_, ?_, ?_, ?_, rfl, ?_, ?_⟩
  · simp only [resumeTicket]
    split_ifs <;> rfl
  · intro hap
    simp [resumeTicket, hap]
  · intro hap hstage
    simp [resumeTicket, hap, hstage]
  · intro hap hstage
    simp [resumeTicket, hap, hstage]
  · intro t ht
    have hne : ¬ (t.state ≠ "paused") := by simp [ht]
    simp [resumeTaskTransition, hne]
  · intro t ht ap
    simp [resumeTaskTransition, ht]

/-- Witness for claim C7: resuming the sample paused running-stage ticket
turns its status `active` and its paused task `queued` at the resume time. -/
theorem resume_ticket_amended_witness :
    (samplePausedTicket.approval_required
        && (samplePausedTicket.approval_status == "pending")) = false
    ∧ samplePausedTicket.stage ≠ "finished"
    ∧ samplePausedTask.state = "paused"
    ∧ (resumeTicket 9 samplePausedTicket [samplePausedTask]).1.status = "active"
    ∧ (resumeTaskTransition 9 false samplePausedTask).state = "queued"
    ∧ (resumeTaskTransition 9 false samplePausedTask).next_run_at = some 9 := by
  have h := resume_ticket_amended 9 samplePausedTicket [samplePausedTask]
  exact ⟨by decide, by decide, by decide,
    h.2.2.1 (by decide) (by decide),
    (h.2.2.2.2.2.1 samplePausedTask (by decide)).2.2.1,
    (h.2.2.2.2.2.1 samplePausedTask (by decide)).2.2.2⟩

/-- Claim C10 (implicit): `process_due_schedules` clamps its limit to at least
one — with a non-positive limit and at least one due active schedule it still
fires exactly one schedule — and with `limit ≥ 1` it fires at most `limit`
schedules. -/
theorem process_due_schedules_limit_clamp (now limit : Int)
    (schedules : List TicketSchedule) :
    (limit ≤ 0 → dueSchedules now schedules ≠ [] →
      (processDueSchedules now limit schedules).1 = 1)
    ∧ (1 ≤ limit →
      ((processDueSchedules now limit schedules).1 : Int) ≤ limit) := by
  constructor
  · intro hlim hne
    simp only [processDueSchedules]
    have h1 : (max 1 limit).toNat = 1 := by omega
    rw [h1]
    cases hd : dueSchedules now schedules with
    | nil => exact absurd hd hne
    | cons a l => simp [hd]
  · intro hlim
    simp only [processDueSchedules]
    have h2 : (List.take (max 1 limit).toNat (dueSchedules now schedules)).length
        ≤ (max 1 limit).toNat := by
      simpa using List.length_take_le _ _
    omega

/-- Witness for claim C10: with one due schedule, a zero limit still fires
one schedule, and a limit of three fires at most three. -/
theorem process_due_schedules_limit_clamp_witness :
    (0 : Int) ≤ 0
    ∧ dueSchedules 5 [sampleSchedule] ≠ []
    ∧ (processDueSchedules 5 0 [sampleSchedule]).1 = 1
    ∧ (1 : Int) ≤ 3
    ∧ ((processDueSchedules 5 3 [sampleSchedule]).1 : Int) ≤ 3 :=
  ⟨by decide, by decide,
   (process_due_schedules_limit_clamp 5 0 [sampleSchedule]).1 (by decide) (by decide),
   by decide,
   (process_due_schedules_limit_clamp 5 3 [sampleSchedule]).2 (by decide)⟩

/-- Counterexample for claim C8: at `value = 0`, `default = 5` the code returns
`max(0, 1) = 1` while the spec formula `max(value or default, 1)` (with Python
falsiness, so `0` selects the default) returns `5`. -/
theorem normalize_max_attempts_spec_mismatch :
    normalize_max_attempts (some 0) 5 = 1
      ∧ normalizeMaxAttemptsSpec (some 0) 5 = 5
      ∧ normalize_max_attempts (some 0) 5 ≠ normalizeMaxAttemptsSpec (some 0) 5 := by
  refine ⟨by decide, by decide, by decide⟩

/-- Claim C8 (amended): `normalize_max_attempts(value, default)` equals
`max(default, 1)` when `value` is absent (`None`) and `max(value, 1)` when it is
present — the default is substituted only for `None`, not for other falsy
values — and the result is never less than 1. -/
theorem normalize_max_attempts_amended (value : Option Int) (default : Int) :
    normalize_max_attempts value default
        = (match value with
           | none => max default 1
           | some v => max v 1)
      ∧ 1 ≤ normalize_max_attempts value default := by
  cases value <;>
    dsimp only [normalize_max_attempts, orInt] <;>
    refine ⟨?_, ?_⟩ <;>
    (try split) <;> omega

end Evercore
